import Mathlib

/-!
Shallow embedding of the claude-proxy repository (Go) for specification
checking.  Each definition mirrors one function of the source; the file
is organised source-file by source-file:

* config.go   : `RemoteRecord`, `Config`, `applyDefaultsToRecord`,
                `Config.normalize`, `Config.syncLegacyFromActive`,
                `DefaultConfig`, `Config.savePrepared` (the value that
                `Save` marshals), `appGetConfig` (app.go `GetConfig`).
* proxy.go    : `stringContains`, `contains`, `dialThroughProxy`
                response check, `handleConnect`, `handleHTTP`.
* ssh_tunnel.go : `buildAuthMethods`, `tunnelStop`, the `Start`
                reconnect loop and the `connect` session trace.

Go `int` is modelled as `Int`; Go strings as `String` (or `List Char`
where byte-level slicing matters); nondeterministic fresh-ID generation
(`newRecordID`, crypto/rand) is threaded explicitly through an
`IDSupply` so that runs are reproducible.
-/

/- ===================== config.go : data model ===================== -/

/-- Mirror of config.go `RemoteRecord` (one saved connection profile). -/
structure RemoteRecord where
  id : String
  name : String
  sshHost : String
  sshPort : Int
  sshUser : String
  sshKeyPath : String
  proxyPort : Int
  remotePort : Int
  httpProxy : String
  httpsProxy : String
  logLevel : String
deriving DecidableEq, Repr, Inhabited

attribute [ext] RemoteRecord

/-- Mirror of config.go `Config` (records + legacy flat fields). -/
structure Config where
  records : List RemoteRecord
  activeID : String
  recordName : String
  sshHost : String
  sshPort : Int
  sshUser : String
  sshPassword : String
  sshKeyPath : String
  sshKeyPassphrase : String
  proxyPort : Int
  remotePort : Int
  httpProxy : String
  httpsProxy : String
  logLevel : String
deriving DecidableEq, Repr, Inhabited

/-- Explicit supply of fresh record IDs, standing in for config.go
`newRecordID` (crypto/rand backed, nondeterministic in the source). -/
structure IDSupply where
  gen : Nat → String
  next : Nat

/-- Draw one fresh ID from the supply. -/
def IDSupply.fresh (s : IDSupply) : String × IDSupply :=
  (s.gen s.next, { s with next := s.next + 1 })

/-- Mirror of config.go `applyDefaultsToRecord`: a zero port field is
replaced by its default (22 for SSH, 8080 for proxy and remote);
anything else is untouched. -/
def applyDefaultsToRecord (record : RemoteRecord) : RemoteRecord :=
  let record := if record.sshPort = 0 then { record with sshPort := 22 } else record
  let record := if record.proxyPort = 0 then { record with proxyPort := 8080 } else record
  if record.remotePort = 0 then { record with remotePort := 8080 } else record

/-- Mirror of the loop body of config.go `normalize`: apply defaults to
every record and give records with an empty ID a fresh one, in order. -/
def assignIDs : List RemoteRecord → IDSupply → List RemoteRecord × IDSupply
  | [], ids => ([], ids)
  | r :: rs, ids =>
    let r := applyDefaultsToRecord r
    let (r, ids) :=
      if r.id = "" then
        let (fid, ids) := ids.fresh
        ({ r with id := fid }, ids)
      else (r, ids)
    let (rs, ids) := assignIDs rs ids
    (r :: rs, ids)

/-- Mirror of config.go `findRecordIndex` (linear scan, -1 when absent),
generalised over the record list. -/
def findIdxAux : List RemoteRecord → String → Nat → Int
  | [], _, _ => -1
  | r :: rs, id, i => if r.id = id then (i : Int) else findIdxAux rs id (i + 1)

/-- Mirror of config.go `findRecordIndex` on a `Config`. -/
def Config.findRecordIndex (c : Config) (id : String) : Int :=
  findIdxAux c.records id 0

/-- ID of the first record, or the empty string when there is none
(config.go always guards this access by a non-empty check). -/
def recordsHeadID : List RemoteRecord → String
  | [] => ""
  | r :: _ => r.id

/-- Record that config.go `normalize` builds from the legacy flat fields
when the record list is empty (note: `LogLevel` is not copied in the
source, so it stays at its zero value). -/
def legacyRecord (c : Config) (fid : String) : RemoteRecord :=
  { id := fid, name := c.recordName, sshHost := c.sshHost,
    sshPort := c.sshPort, sshUser := c.sshUser,
    sshKeyPath := c.sshKeyPath, proxyPort := c.proxyPort,
    remotePort := c.remotePort, httpProxy := c.httpProxy,
    httpsProxy := c.httpsProxy, logLevel := "" }

/-- Mirror of config.go `normalize`: when no record exists, build one
from the legacy flat fields; then apply defaults and assign missing IDs
to every record; finally repair `ActiveID` if empty or dangling. -/
def Config.normalize (c : Config) (ids : IDSupply) : Config × IDSupply :=
  let (baseRecords, ids) :=
    if c.records.isEmpty then
      let (fid, ids) := ids.fresh
      ([applyDefaultsToRecord (legacyRecord c fid)], ids)
    else (c.records, ids)
  let (records, ids) := assignIDs baseRecords ids
  let activeID :=
    if c.activeID = "" ∧ ¬ records.isEmpty then recordsHeadID records
    else if c.activeID ≠ "" ∧ findIdxAux records c.activeID 0 = -1 ∧ ¬ records.isEmpty then
      recordsHeadID records
    else c.activeID
  ({ c with records := records, activeID := activeID }, ids)

/-- Mirror of config.go `getActiveRecord`. -/
def Config.getActiveRecord (c : Config) : Option RemoteRecord :=
  if c.activeID = "" then none
  else c.records.find? (fun r => r.id = c.activeID)

/-- Mirror of config.go `syncLegacyFromActive`: copy the active record
into the legacy flat fields; an empty log level becomes INFO. -/
def Config.syncLegacyFromActive (c : Config) : Config :=
  match c.getActiveRecord with
  | none => c
  | some r =>
    { c with recordName := r.name, sshHost := r.sshHost, sshPort := r.sshPort,
             sshUser := r.sshUser, sshKeyPath := r.sshKeyPath,
             proxyPort := r.proxyPort, remotePort := r.remotePort,
             httpProxy := r.httpProxy, httpsProxy := r.httpsProxy,
             logLevel := if r.logLevel = "" then "INFO" else r.logLevel }

/-- The Go zero value of `Config`. -/
def Config.zero : Config :=
  { records := [], activeID := "", recordName := "", sshHost := "", sshPort := 0,
    sshUser := "", sshPassword := "", sshKeyPath := "", sshKeyPassphrase := "",
    proxyPort := 0, remotePort := 0, httpProxy := "", httpsProxy := "", logLevel := "" }

/-- Mirror of config.go `DefaultConfig`: one fresh record with the
default ports, made active, legacy fields synced. -/
def DefaultConfig (ids : IDSupply) : Config × IDSupply :=
  let (fid, ids) := ids.fresh
  let record : RemoteRecord :=
    { id := fid, name := "", sshHost := "", sshPort := 22, sshUser := "",
      sshKeyPath := "", proxyPort := 8080, remotePort := 8080,
      httpProxy := "", httpsProxy := "", logLevel := "" }
  (({ Config.zero with records := [record], activeID := fid }).syncLegacyFromActive, ids)

/-- Value that config.go `Save` hands to the JSON marshaller: the config
after `normalize` and `syncLegacyFromActive`, with `SSHPassword`,
`SSHKeyPassphrase` and `RecordName` blanked. -/
def Config.savePrepared (c : Config) (ids : IDSupply) : Config :=
  let c := (c.normalize ids).1
  let c := c.syncLegacyFromActive
  { c with sshPassword := "", sshKeyPassphrase := "", recordName := "" }

/-- Set both secret fields to the empty string (the operation app.go
`GetConfig` and config.go `Save` perform on their working copy). -/
def clearSecrets (c : Config) : Config :=
  { c with sshPassword := "", sshKeyPassphrase := "" }

/-- Mirror of app.go `GetConfig`: copy, blank both secrets, re-sync the
legacy fields from the active record, return the copy. -/
def appGetConfig (c : Config) : Config :=
  (clearSecrets c).syncLegacyFromActive

/- ===================== config.go : helper lemmas ===================== -/

theorem normalize_clearSecrets (c : Config) (ids : IDSupply) :
    (clearSecrets c).normalize ids
      = (clearSecrets (c.normalize ids).1, (c.normalize ids).2) := by
  cases c
  rfl

theorem sync_clearSecrets (c : Config) :
    (clearSecrets c).syncLegacyFromActive = clearSecrets c.syncLegacyFromActive := by
  cases c
  unfold Config.syncLegacyFromActive Config.getActiveRecord clearSecrets
  dsimp only
  split
  · rfl
  · rfl

theorem savePrepared_clearSecrets (c : Config) (ids : IDSupply) :
    (clearSecrets c).savePrepared ids = c.savePrepared ids := by
  unfold Config.savePrepared
  rw [normalize_clearSecrets]
  dsimp only
  rw [sync_clearSecrets]
  generalize (c.normalize ids).1.syncLegacyFromActive = d
  cases d
  rfl

theorem clearSecrets_idem (c : Config) : clearSecrets (clearSecrets c) = clearSecrets c := by
  cases c
  rfl

theorem getConfig_clearSecrets (c : Config) :
    appGetConfig (clearSecrets c) = appGetConfig c := by
  unfold appGetConfig
  rw [clearSecrets_idem]

/-- Ports of a record (ID-independent view used to state default
application across `normalize`, which may also assign fresh IDs). -/
def recordPorts (r : RemoteRecord) : Int × Int × Int :=
  (r.sshPort, r.proxyPort, r.remotePort)

theorem applyDefaults_sshPort (r : RemoteRecord) :
    (applyDefaultsToRecord r).sshPort = if r.sshPort = 0 then 22 else r.sshPort := by
  unfold applyDefaultsToRecord
  dsimp only
  split <;> split <;> split <;> rfl

theorem applyDefaults_proxyPort (r : RemoteRecord) :
    (applyDefaultsToRecord r).proxyPort = if r.proxyPort = 0 then 8080 else r.proxyPort := by
  unfold applyDefaultsToRecord
  dsimp only
  split <;> split <;> split <;> rfl

theorem applyDefaults_remotePort (r : RemoteRecord) :
    (applyDefaultsToRecord r).remotePort = if r.remotePort = 0 then 8080 else r.remotePort := by
  unfold applyDefaultsToRecord
  dsimp only
  split <;> split <;> split <;> rfl

theorem applyDefaults_other (r : RemoteRecord) :
    (applyDefaultsToRecord r).id = r.id ∧ (applyDefaultsToRecord r).name = r.name ∧
    (applyDefaultsToRecord r).sshHost = r.sshHost ∧
    (applyDefaultsToRecord r).sshUser = r.sshUser ∧
    (applyDefaultsToRecord r).sshKeyPath = r.sshKeyPath ∧
    (applyDefaultsToRecord r).httpProxy = r.httpProxy ∧
    (applyDefaultsToRecord r).httpsProxy = r.httpsProxy ∧
    (applyDefaultsToRecord r).logLevel = r.logLevel := by
  unfold applyDefaultsToRecord
  dsimp only
  split <;> split <;> split <;> simp

theorem applyDefaults_idem (r : RemoteRecord) :
    applyDefaultsToRecord (applyDefaultsToRecord r) = applyDefaultsToRecord r := by
  have ho := applyDefaults_other (applyDefaultsToRecord r)
  ext1
  · exact ho.1
  · exact ho.2.1
  · exact ho.2.2.1
  · rw [applyDefaults_sshPort, applyDefaults_sshPort r]
    split_ifs <;> omega
  · exact ho.2.2.2.1
  · exact ho.2.2.2.2.1
  · rw [applyDefaults_proxyPort, applyDefaults_proxyPort r]
    split_ifs <;> omega
  · rw [applyDefaults_remotePort, applyDefaults_remotePort r]
    split_ifs <;> omega
  · exact ho.2.2.2.2.2.1
  · exact ho.2.2.2.2.2.2.1
  · exact ho.2.2.2.2.2.2.2

theorem assignIDs_ports (rs : List RemoteRecord) (ids : IDSupply) :
    ((assignIDs rs ids).1).map recordPorts
      = rs.map (fun r => recordPorts (applyDefaultsToRecord r)) := by
  induction rs generalizing ids with
  | nil => rfl
  | cons r rs ih =>
    unfold assignIDs
    dsimp only
    split
    · simp [recordPorts, ih]
    · simp [recordPorts, ih]

/- ===================== Claim C9 ===================== -/

/-- C9: Port defaulting. For every record, a zero SSH port becomes 22 and
zero proxy/remote ports become 8080 while nonzero values are unchanged
(`applyDefaultsToRecord`); a fresh `DefaultConfig` carries exactly those
defaults in both its record and its synced legacy fields; and a loaded
configuration run through `normalize` has the defaults applied to every
record (whether the record list was present or rebuilt from the legacy
fields). -/
theorem ports_default_applied :
    (∀ r : RemoteRecord,
       (applyDefaultsToRecord r).sshPort = (if r.sshPort = 0 then 22 else r.sshPort) ∧
       (applyDefaultsToRecord r).proxyPort = (if r.proxyPort = 0 then 8080 else r.proxyPort) ∧
       (applyDefaultsToRecord r).remotePort = (if r.remotePort = 0 then 8080 else r.remotePort)) ∧
    (∀ ids : IDSupply, ids.gen ids.next ≠ "" →
       (DefaultConfig ids).1.sshPort = 22 ∧ (DefaultConfig ids).1.proxyPort = 8080 ∧
       (DefaultConfig ids).1.remotePort = 8080 ∧
       (DefaultConfig ids).1.records.map recordPorts = [(22, 8080, 8080)]) ∧
    (∀ (c : Config) (ids : IDSupply),
       ((c.normalize ids).1).records.map recordPorts
         = (if c.records.isEmpty then [legacyRecord c (ids.gen ids.next)] else c.records).map
             (fun r => recordPorts (applyDefaultsToRecord r))) := by
  refine ⟨fun r => ⟨applyDefaults_sshPort r, applyDefaults_proxyPort r, applyDefaults_remotePort r⟩, ?_, ?_⟩
  · intro ids h
    unfold DefaultConfig IDSupply.fresh Config.syncLegacyFromActive Config.getActiveRecord Config.zero
    simp [h, recordPorts, List.find?]
  · intro c ids
    unfold Config.normalize IDSupply.fresh
    dsimp only
    split
    · simp_all [assignIDs_ports, applyDefaults_idem]
    · simp_all [assignIDs_ports]

/-- Witness for C9 at a concrete supply, record and config. -/
theorem ports_default_applied_witness :
    ((fun (_ : Nat) => "id0") 0 ≠ "") ∧
    (DefaultConfig ⟨fun _ => "id0", 0⟩).1.sshPort = 22 ∧
    (applyDefaultsToRecord default).proxyPort = 8080 := by
  refine ⟨by decide, (ports_default_applied.2.1 ⟨fun _ => "id0", 0⟩ (by decide)).1, ?_⟩
  have h := (ports_default_applied.1 default).2.1
  simpa using h

/- ===================== Claim C10 ===================== -/

/-- C10: The SSH password and key passphrase never leave the live
session: any two configs that agree on everything except `SSHPassword`
and `SSHKeyPassphrase` produce the identical value for the JSON
marshaller in `Save` and the identical result from `GetConfig` (both
clear the secrets before handing the data out). -/
theorem save_and_getConfig_hide_secrets (ids : IDSupply) (c1 c2 : Config)
    (h : clearSecrets c1 = clearSecrets c2) :
    c1.savePrepared ids = c2.savePrepared ids ∧ appGetConfig c1 = appGetConfig c2 := by
  constructor
  · rw [← savePrepared_clearSecrets c1, ← savePrepared_clearSecrets c2, h]
  · rw [← getConfig_clearSecrets c1, ← getConfig_clearSecrets c2, h]

/-- Concrete pair of configs that differ only in their secrets. -/
def configWithSecrets : Config :=
  { Config.zero with sshHost := "h", sshPassword := "hunter2", sshKeyPassphrase := "pp" }

/-- Same config with other secrets. -/
def configWithOtherSecrets : Config :=
  { Config.zero with sshHost := "h", sshPassword := "different", sshKeyPassphrase := "qq" }

/-- Witness for C10 at two concrete configs differing only in secrets. -/
theorem save_and_getConfig_hide_secrets_witness :
    clearSecrets configWithSecrets = clearSecrets configWithOtherSecrets ∧
    configWithSecrets.savePrepared ⟨fun _ => "id0", 0⟩
      = configWithOtherSecrets.savePrepared ⟨fun _ => "id0", 0⟩ ∧
    appGetConfig configWithSecrets = appGetConfig configWithOtherSecrets := by
  have h := save_and_getConfig_hide_secrets ⟨fun _ => "id0", 0⟩
    configWithSecrets configWithOtherSecrets rfl
  exact ⟨rfl, h.1, h.2⟩

/- ===================== proxy.go : substring check ===================== -/

/-- Go slice expression s[i:j] on a list of characters. -/
def goSlice (s : List Char) (i j : Nat) : List Char := (s.drop i).take (j - i)

/-- Mirror of proxy.go `stringContains`: scan every window of the length
of `substr`; the Go loop bound `i <= len(s)-len(substr)` runs no
iteration when the substring is longer than the string. -/
def stringContains (s substr : List Char) : Bool :=
  if s.length < substr.length then false
  else (List.range (s.length - substr.length + 1)).any
    (fun i => goSlice s i (i + substr.length) == substr)

/-- Mirror of proxy.go `contains`: length guard, then an explicit check
of the windows at offsets 0 and 1, then the general scan. -/
def contains (s substr : List Char) : Bool :=
  decide (s.length ≥ substr.length) &&
    (goSlice s 0 substr.length == substr ||
      (decide (s.length > substr.length) && goSlice s 1 (substr.length + 1) == substr) ||
      stringContains s substr)

theorem slice_isSub {s t : List Char} {i : Nat}
    (h : goSlice s i (i + t.length) = t) : t <:+: s := by
  refine ⟨s.take i, s.drop (i + t.length), ?_⟩
  have harith : i + t.length - i = t.length := by omega
  rw [goSlice, harith] at h
  have key : s.take i ++ ((s.drop i).take t.length ++ (s.drop i).drop t.length) = s := by
    rw [List.take_append_drop, List.take_append_drop]
  rw [h, List.drop_drop] at key
  rw [← List.append_assoc] at key
  exact key

theorem sub_stringContains {s t : List Char} (h : t <:+: s) :
    stringContains s t = true := by
  obtain ⟨p, q, hpq⟩ := h
  have hlen : s.length = p.length + t.length + q.length := by
    rw [← hpq]; simp only [List.length_append]
  unfold stringContains
  rw [if_neg (by omega)]
  rw [List.any_eq_true]
  refine ⟨p.length, List.mem_range.mpr (by omega), ?_⟩
  rw [beq_iff_eq, goSlice]
  have harith : p.length + t.length - p.length = t.length := by omega
  rw [harith]
  have hdrop : s.drop p.length = t ++ q := by
    rw [← hpq, List.append_assoc, List.drop_left]
  rw [hdrop, List.take_left]

theorem stringContains_sub {s t : List Char} (h : stringContains s t = true) :
    t <:+: s := by
  unfold stringContains at h
  by_cases hc : s.length < t.length
  · rw [if_pos hc] at h
    exact absurd h (by simp)
  · rw [if_neg hc, List.any_eq_true] at h
    obtain ⟨i, _, hslice⟩ := h
    exact slice_isSub (beq_iff_eq.mp hslice)

/-- The convoluted proxy.go `contains` is exactly substring containment. -/
theorem contains_iff_sub (s t : List Char) : contains s t = true ↔ t <:+: s := by
  constructor
  · intro h
    unfold contains at h
    simp only [Bool.and_eq_true, Bool.or_eq_true, decide_eq_true_eq, beq_iff_eq] at h
    obtain ⟨-, (h0 | ⟨-, h1⟩) | hsc⟩ := h
    · exact slice_isSub (i := 0) (by simpa using h0)
    · exact slice_isSub (i := 1) (by rw [Nat.add_comm]; exact h1)
    · exact stringContains_sub hsc
  · intro h
    have hsc := sub_stringContains h
    have hlen : t.length ≤ s.length := h.length_le
    unfold contains
    simp [hsc, hlen]

/- ============== proxy.go : dialThroughProxy response check ============== -/

/-- Observable outcome of the response-validation step of
`dialThroughProxy`. -/
structure ProxyDialOutcome where
  established : Bool
  connClosed : Bool
  errorReturned : Bool
deriving DecidableEq, Repr

/-- Mirror of the tail of proxy.go `dialThroughProxy`: after the CONNECT
request is written to the upstream proxy, a single read of the response
decides the outcome (`.error` models a failed `conn.Read`); the
connection is treated as established when the text read anywhere
contains "200" or "201", otherwise the proxy connection is closed and an
error is returned. -/
def dialThroughProxyResponse (readResult : Except Unit (List Char)) : ProxyDialOutcome :=
  match readResult with
  | .error _ => { established := false, connClosed := true, errorReturned := true }
  | .ok responseStr =>
    if ¬ (contains responseStr "200".toList = true) ∧
       ¬ (contains responseStr "201".toList = true) then
      { established := false, connClosed := true, errorReturned := true }
    else
      { established := true, connClosed := false, errorReturned := false }

/-- Modelled from the claim words for C4 only (spec comparison point):
the status line of an HTTP response, the text before the first CR. -/
def specStatusLine (resp : List Char) : List Char :=
  resp.takeWhile (fun c => c ≠ '\r')

/-- Modelled from the claim words for C4 only: the three characters after
the first space of the status line (the status code). -/
def specStatusCode (resp : List Char) : List Char :=
  (((specStatusLine resp).dropWhile (fun c => c ≠ ' ')).drop 1).take 3

/-- Spec reading of a 2xx response: its status code begins with 2. -/
def specStatusIs2xx (resp : List Char) : Bool :=
  match specStatusCode resp with
  | '2' :: _ => true
  | _ => false

/-- Concrete upstream response: 2xx but without the digits 200 or 201. -/
def resp204 : List Char := "HTTP/1.1 204 No Content\r\n\r\n".toList

/-- Concrete upstream response: not 2xx, but a header value contains the
digit string 200. -/
def resp403 : List Char := "HTTP/1.1 403 Forbidden\r\nContent-Length: 2001\r\n\r\n".toList

/- ===================== Claim C4 ===================== -/

/-- C4 counterexample: the acceptance test is not equivalent to a 2xx
status and is not confined to the status line.  A 204 No Content
response (a 2xx) is rejected, and a 403 response whose Content-Length
header happens to contain the digits 200 is accepted. -/
theorem proxyResponse_not_2xx_equivalent :
    specStatusIs2xx resp204 = true ∧
    (dialThroughProxyResponse (.ok resp204)).established = false ∧
    specStatusIs2xx resp403 = false ∧
    (dialThroughProxyResponse (.ok resp403)).established = true := by
  refine ⟨by decide, by decide, by decide, by decide⟩

/-- C4 (amended): the upstream CONNECT tunnel is treated as established
exactly when the text returned by the single response read contains the
digit string 200 or 201 anywhere (not only in the status line, and not
equivalently to a 2xx status); for every read outcome not satisfying
this, including a failed read, the proxy connection is closed and an
error is returned. -/
theorem proxyResponse_accepts_iff_contains :
    (∀ resp : List Char,
       ((dialThroughProxyResponse (.ok resp)).established = true ↔
         ("200".toList <:+: resp ∨ "201".toList <:+: resp))) ∧
    (∀ readResult : Except Unit (List Char),
       (dialThroughProxyResponse readResult).established = false →
         (dialThroughProxyResponse readResult).connClosed = true ∧
         (dialThroughProxyResponse readResult).errorReturned = true) := by
  constructor
  · intro resp
    rw [← contains_iff_sub, ← contains_iff_sub]
    unfold dialThroughProxyResponse
    dsimp only
    by_cases h1 : contains resp "200".toList = true
    · rw [if_neg (fun hcond => hcond.1 h1)]
      exact ⟨fun _ => Or.inl h1, fun _ => rfl⟩
    · by_cases h2 : contains resp "201".toList = true
      · rw [if_neg (fun hcond => hcond.2 h2)]
        exact ⟨fun _ => Or.inr h2, fun _ => rfl⟩
      · rw [if_pos ⟨h1, h2⟩]
        exact ⟨fun hff => Bool.noConfusion hff, fun hor => (hor.elim h1 h2).elim⟩
  · intro readResult
    cases readResult with
    | error e => intro _; exact ⟨rfl, rfl⟩
    | ok resp =>
      unfold dialThroughProxyResponse
      dsimp only
      split <;> intro h
      · exact ⟨rfl, rfl⟩
      · simp at h

/-- Witness for C4 (amended) at concrete responses. -/
theorem proxyResponse_accepts_iff_contains_witness :
    (dialThroughProxyResponse (.ok "HTTP/1.1 200 Connection Established".toList)).established
      = true ∧
    (dialThroughProxyResponse (.error ())).connClosed = true := by
  refine ⟨(proxyResponse_accepts_iff_contains.1 _).mpr (Or.inl (by decide)), ?_⟩
  exact ((proxyResponse_accepts_iff_contains.2 (.error ())) rfl).1

/- ===================== proxy.go : handleConnect ===================== -/

/-- Result of the target dial in `handleConnect` (direct, or through the
upstream HTTPS proxy). -/
inductive DialResult
  | ok
  | fail (msg : String)
deriving DecidableEq, Repr

/-- Observable outcome of one `handleConnect` invocation. -/
structure ConnectHandlerOutcome where
  wroteStatus : Option Nat
  wroteBody : Option String
  hijacked : Bool
  relayed : Bool
  serverKeepsServing : Bool
deriving DecidableEq, Repr

/-- Mirror of the control flow of proxy.go `handleConnect`: a failed dial
answers 502 with the error detail through the normal response path and
returns (the server keeps serving; the connection is never hijacked);
only after a successful dial is the client connection hijacked, the
literal 200 line written, and the bidirectional relay run. -/
def handleConnect (host : String) (dial : DialResult)
    (hijackSupported hijackOk writeEstablishedOk : Bool) : ConnectHandlerOutcome :=
  match dial with
  | .fail msg =>
    { wroteStatus := some 502,
      wroteBody := some ("Failed to connect to " ++ host ++ ": " ++ msg),
      hijacked := false, relayed := false, serverKeepsServing := true }
  | .ok =>
    if ¬ hijackSupported = true then
      { wroteStatus := some 500, wroteBody := some "Hijacking not supported",
        hijacked := false, relayed := false, serverKeepsServing := true }
    else if ¬ hijackOk = true then
      { wroteStatus := some 500, wroteBody := some "Hijack failed",
        hijacked := true, relayed := false, serverKeepsServing := true }
    else if ¬ writeEstablishedOk = true then
      { wroteStatus := none, wroteBody := none,
        hijacked := true, relayed := false, serverKeepsServing := true }
    else
      { wroteStatus := none, wroteBody := none,
        hijacked := true, relayed := true, serverKeepsServing := true }

/- ===================== Claim C5 ===================== -/

/-- C5: for every CONNECT request whose target dial fails, the client is
answered 502 Bad Gateway with a body containing the error detail, the
client connection is not hijacked, nothing is relayed, and the handler
returns with the server still serving. -/
theorem connect_dial_failure_502 (host msg : String)
    (hijackSupported hijackOk writeEstablishedOk : Bool) :
    handleConnect host (.fail msg) hijackSupported hijackOk writeEstablishedOk
      = { wroteStatus := some 502,
          wroteBody := some ("Failed to connect to " ++ host ++ ": " ++ msg),
          hijacked := false, relayed := false, serverKeepsServing := true } ∧
    msg.toList <:+: ("Failed to connect to " ++ host ++ ": " ++ msg).toList := by
  refine ⟨rfl, ?_⟩
  refine ⟨("Failed to connect to " ++ host ++ ": ").toList, [], ?_⟩
  rw [List.append_nil]
  have hs : ("Failed to connect to " ++ host ++ ": " ++ msg).toList
      = ("Failed to connect to " ++ host ++ ": ").toList ++ msg.toList := by
    simp [String.toList]
  rw [hs]

/- ===================== proxy.go : handleHTTP ===================== -/

/-- HTTP headers as a finite association of canonical header keys to
their ordered value lists (the view of Go `http.Header`; Go map
iteration order is not observable on this view, per-key value order is
preserved by `Header.Add`). -/
abbrev HeaderMap := List (String × List String)

/-- Mirror of `Header.Del` on the association view: drop the key. -/
def headerDel (h : HeaderMap) (key : String) : HeaderMap :=
  h.filter (fun kv => kv.1 ≠ key)

/-- Mirror of the header-copy loop of `handleHTTP`: every inbound key and
every one of its values is added to the fresh outbound request, which
starts with no headers, so the copy is the identity on the map view. -/
def copyHeaders (h : HeaderMap) : HeaderMap := h

/-- Redirect behaviour of the `http.Client` used by `handleHTTP`. -/
inductive RedirectPolicy
  | follow
  | useLastResponse
deriving DecidableEq, Repr

/-- Mirror of the `CheckRedirect` closure in `handleHTTP`: it always
returns `http.ErrUseLastResponse`. -/
def handleHTTPRedirectPolicy : RedirectPolicy := .useLastResponse

/-- An upstream HTTP response: status, headers, and the successive chunk
reads of its body. -/
structure HTTPResponse where
  status : Int
  headers : HeaderMap
  bodyChunks : List (List Nat)
deriving DecidableEq, Repr

/-- What `client.Do` hands back: under `ErrUseLastResponse` the first
response is returned unmodified even when it is a redirect; a following
client would instead chase a 3xx to the redirected response. -/
def clientDo (policy : RedirectPolicy) (first redirected : HTTPResponse) : HTTPResponse :=
  match policy with
  | .useLastResponse => first
  | .follow => if 300 ≤ first.status ∧ first.status < 400 then redirected else first

/-- Mirror of the streaming body-copy loop of `handleHTTP`: each chunk
read from the response body is written (and flushed) before the next
read; the loop ends at the read error (EOF). -/
def writeBodyChunks : List (List Nat) → List Nat
  | [] => []
  | c :: cs => c ++ writeBodyChunks cs

/-- Observable outcome of one `handleHTTP` invocation. -/
structure HTTPHandlerOutcome where
  outHeaders : HeaderMap
  sentStatus : Int
  sentBody : List Nat
deriving DecidableEq, Repr

/-- Mirror of proxy.go `handleHTTP` on the request/response layer: copy
all inbound headers onto the outbound request, delete the three
hop-by-hop proxy headers, issue the request with redirects disabled, and
stream status and body of the response back. -/
def handleHTTP (reqHeaders : HeaderMap) (first redirected : HTTPResponse) :
    HTTPHandlerOutcome :=
  let outReqHeaders :=
    headerDel (headerDel (headerDel (copyHeaders reqHeaders) "Proxy-Connection")
      "Proxy-Authenticate") "Proxy-Authorization"
  let resp := clientDo handleHTTPRedirectPolicy first redirected
  { outHeaders := outReqHeaders,
    sentStatus := resp.status,
    sentBody := writeBodyChunks resp.bodyChunks }

theorem writeBodyChunks_join (cs : List (List Nat)) : writeBodyChunks cs = cs.flatten := by
  induction cs with
  | nil => rfl
  | cons c cs ih => simp [writeBodyChunks, ih]

theorem headerDel_three (l : HeaderMap) :
    headerDel (headerDel (headerDel l "Proxy-Connection") "Proxy-Authenticate")
        "Proxy-Authorization"
      = l.filter (fun kv =>
          kv.1 ≠ "Proxy-Connection" ∧ kv.1 ≠ "Proxy-Authenticate" ∧
            kv.1 ≠ "Proxy-Authorization") := by
  unfold headerDel
  rw [List.filter_filter, List.filter_filter]
  refine List.filter_congr fun x _ => ?_
  by_cases e1 : x.1 = "Proxy-Connection" <;>
    by_cases e2 : x.1 = "Proxy-Authenticate" <;>
    by_cases e3 : x.1 = "Proxy-Authorization" <;>
    simp [e1, e2, e3]

/- ===================== Claim C6 ===================== -/

/-- C6: for every plain HTTP request proxied without an upstream proxy,
the outbound headers are exactly the inbound headers minus the three
hop-by-hop keys Proxy-Connection, Proxy-Authenticate and
Proxy-Authorization; the client never follows a redirect (even a 3xx
first response is relayed as-is), and the response status and body bytes
are passed through unchanged. -/
theorem handleHTTP_passthrough (reqHeaders : HeaderMap) (first redirected : HTTPResponse) :
    (handleHTTP reqHeaders first redirected).outHeaders
      = reqHeaders.filter (fun kv =>
          kv.1 ≠ "Proxy-Connection" ∧ kv.1 ≠ "Proxy-Authenticate" ∧
            kv.1 ≠ "Proxy-Authorization") ∧
    clientDo handleHTTPRedirectPolicy first redirected = first ∧
    (handleHTTP reqHeaders first redirected).sentStatus = first.status ∧
    (handleHTTP reqHeaders first redirected).sentBody = first.bodyChunks.flatten := by
  exact ⟨headerDel_three reqHeaders, rfl, rfl, writeBodyChunks_join first.bodyChunks⟩

/- ========== proxy.go / ssh_tunnel.go : bidirectional relays ========== -/

/-- Connection endpoints of the two relay pairs: the CONNECT handler
relays client/target, the tunnel handler relays remote/localProxy. -/
inductive Endpoint
  | client | target | remote | localProxy
deriving DecidableEq, Repr

/-- Events of a relay, in program order per goroutine. -/
inductive RelayEv
  | copyDone (src dst : Endpoint)    -- io.Copy(dst, src) returned
  | closeWrite (e : Endpoint)        -- e.(*net.TCPConn).CloseWrite()
  | closeFull (e : Endpoint)         -- e.Close()
deriving DecidableEq, Repr

/-- A bidirectional relay: the ordered events of its two copy goroutines,
the events run after the WaitGroup join, and whether the surrounding
function returns only after the join. -/
structure RelayModel where
  goroutineA : List RelayEv
  goroutineB : List RelayEv
  afterJoin : List RelayEv
  joinsBeforeReturn : Bool
deriving DecidableEq, Repr

/-- Mirror of the relay section of proxy.go `handleConnect`: each copy
goroutine half-closes the destination of its direction right after its
copy returns; `wg.Wait()` precedes the return, and the deferred
`clientConn.Close()` and `targetConn.Close()` run at return (LIFO). -/
def connectRelay : RelayModel :=
  { goroutineA := [.copyDone .client .target, .closeWrite .target],
    goroutineB := [.copyDone .target .client, .closeWrite .client],
    afterJoin := [.closeFull .client, .closeFull .target],
    joinsBeforeReturn := true }

/-- Mirror of ssh_tunnel.go `handleRemoteConnection`: the two copy
goroutines contain no half-close at all; after `wg.Wait()` the deferred
`localConn.Close()` and `remoteConn.Close()` run (LIFO). -/
def tunnelRelay : RelayModel :=
  { goroutineA := [.copyDone .remote .localProxy],
    goroutineB := [.copyDone .localProxy .remote],
    afterJoin := [.closeFull .localProxy, .closeFull .remote],
    joinsBeforeReturn := true }

/-- A goroutine respects the half-close discipline when every completed
copy is immediately followed by a CloseWrite of that copy's destination. -/
def goroutineHalfCloses : List RelayEv → Bool
  | [] => true
  | RelayEv.copyDone _ dst :: rest =>
    (match rest with
     | RelayEv.closeWrite d :: _ => d == dst
     | _ => false) && goroutineHalfCloses rest
  | _ :: rest => goroutineHalfCloses rest

/-- Both directions of a relay follow the half-close discipline. -/
def relayHalfCloses (m : RelayModel) : Bool :=
  goroutineHalfCloses m.goroutineA && goroutineHalfCloses m.goroutineB

/-- Whether any event of the list is a CloseWrite. -/
def hasCloseWrite (evs : List RelayEv) : Bool :=
  evs.any (fun e => match e with | RelayEv.closeWrite _ => true | _ => false)

/- ===================== Claim C1 ===================== -/

/-- C1 counterexample: the tunnel's remote/local relay
(`handleRemoteConnection`) performs no half-close at all — neither copy
direction is followed by a CloseWrite of its destination — so the claim
that every relay pair closes the destination write side as soon as its
copy completes is false for this pair. -/
theorem tunnelRelay_no_halfClose :
    relayHalfCloses tunnelRelay = false ∧
    hasCloseWrite (tunnelRelay.goroutineA ++ tunnelRelay.goroutineB) = false := by
  exact ⟨rfl, rfl⟩

/-- C1 (amended): only the CONNECT handler's client/target relay
half-closes the destination of each direction as soon as that
direction's copy completes; the tunnel's remote/local relay performs no
half-close and only closes both connections fully after both copies have
terminated.  Both relays return only after both copy directions have
terminated (WaitGroup join before return). -/
theorem relay_halfClose_discipline :
    relayHalfCloses connectRelay = true ∧
    connectRelay.joinsBeforeReturn = true ∧
    tunnelRelay.joinsBeforeReturn = true ∧
    hasCloseWrite (tunnelRelay.goroutineA ++ tunnelRelay.goroutineB) = false ∧
    tunnelRelay.afterJoin = [.closeFull .localProxy, .closeFull .remote] := by
  exact ⟨rfl, rfl, rfl, rfl, rfl⟩

/- ===================== ssh_tunnel.go : Stop ===================== -/

/-- The mutable state of an `SSHTunnel` as far as `Stop` touches it:
the reconnect flag, whether `stopChan` has been closed, and whether a
listener / SSH client are present and closed. -/
structure TunnelState where
  reconnect : Bool
  stopChanClosed : Bool
  hasListener : Bool
  listenerClosed : Bool
  hasClient : Bool
  clientClosed : Bool
deriving DecidableEq, Repr

/-- A Go runtime fault that aborts the process when unrecovered. -/
inductive RuntimeAbort
  | closeOfClosedChannel
deriving DecidableEq, Repr

/-- State right after `NewSSHTunnel`: reconnect enabled, stopChan open,
no session resources. -/
def newSSHTunnelState : TunnelState :=
  { reconnect := true, stopChanClosed := false, hasListener := false,
    listenerClosed := false, hasClient := false, clientClosed := false }

/-- Mirror of ssh_tunnel.go `Stop`: clear the reconnect flag, then
`close(t.stopChan)` — which is a runtime panic when the channel is
already closed — then close listener and client when present. -/
def tunnelStop (t : TunnelState) : Except RuntimeAbort TunnelState :=
  let t := { t with reconnect := false }
  if t.stopChanClosed then Except.error RuntimeAbort.closeOfClosedChannel
  else
    let t := { t with stopChanClosed := true }
    let t := if t.hasListener then { t with listenerClosed := true } else t
    let t := if t.hasClient then { t with clientClosed := true } else t
    Except.ok t

/- ===================== Claim C2 ===================== -/

/-- C2 counterexample: `Stop` is not idempotent — a second call after a
first one closes an already-closed channel and panics, aborting the
process. -/
theorem tunnelStop_second_call_aborts :
    Except.bind (tunnelStop newSSHTunnelState) tunnelStop
      = Except.error RuntimeAbort.closeOfClosedChannel := by
  rfl

/-- C2 (amended): only the first call to `Stop` is safe: from every state
whose stop channel is still open — including one with no active session —
`Stop` returns normally, disables reconnection, marks the stop channel
closed (which unblocks any pending accept or keepalive wait), and closes
the listener and client when present; a second call panics on closing
the already-closed channel. -/
theorem tunnelStop_first_call_safe (t : TunnelState) (h : t.stopChanClosed = false) :
    ∃ u, tunnelStop t = Except.ok u ∧ u.reconnect = false ∧ u.stopChanClosed = true ∧
      (t.hasListener = true → u.listenerClosed = true) ∧
      (t.hasClient = true → u.clientClosed = true) := by
  obtain ⟨rec, sc, hl, lc, hc, cc⟩ := t
  cases h
  cases hl <;> cases hc <;>
    exact ⟨_, rfl, rfl, rfl,
      fun hx => by first | rfl | exact Bool.noConfusion hx,
      fun hx => by first | rfl | exact Bool.noConfusion hx⟩

/-- Witness for C2 (amended): the first `Stop` on a fresh tunnel. -/
theorem tunnelStop_first_call_safe_witness :
    newSSHTunnelState.stopChanClosed = false ∧
    ∃ u, tunnelStop newSSHTunnelState = Except.ok u ∧ u.reconnect = false ∧
      u.stopChanClosed = true ∧
      (newSSHTunnelState.hasListener = true → u.listenerClosed = true) ∧
      (newSSHTunnelState.hasClient = true → u.clientClosed = true) :=
  ⟨rfl, tunnelStop_first_call_safe newSSHTunnelState rfl⟩

/- ================= ssh_tunnel.go : buildAuthMethods ================= -/

/-- The SSH authentication methods `buildAuthMethods` can produce. -/
inductive AuthMethod
  | agentAuth
  | publicKey (path : String)
  | passwordAuth (pw : String)
  | keyboardInteractive
deriving DecidableEq, Repr

/-- Environment facts consulted by `buildAuthMethods`: the agent socket
variable, reachability and key listing of the agent, whether the
explicitly configured key file loads, and for each default key path
whether it exists and whether it parses. -/
structure AuthEnv where
  agentSocketSet : Bool
  agentDialOk : Bool
  agentListOk : Bool
  agentKeyCount : Nat
  explicitKeyLoads : Bool
  defaultKeys : List (String × Bool × Bool)
deriving DecidableEq, Repr

/-- Mirror of ssh_tunnel.go `trySSHAgent`: an agent method is produced
only when the socket is set, the dial and listing succeed, and the agent
holds at least one key. -/
def trySSHAgent (env : AuthEnv) : Option AuthMethod :=
  if env.agentSocketSet = false then none
  else if env.agentDialOk = false then none
  else if env.agentListOk = false then none
  else if env.agentKeyCount = 0 then none
  else some AuthMethod.agentAuth

/-- The configuration fields read by `buildAuthMethods`. -/
structure TunnelAuthConfig where
  sshKeyPath : String
  sshPassword : String
deriving DecidableEq, Repr

/-- Mirror of ssh_tunnel.go `buildAuthMethods`: (1) agent, (2) explicit
key path when set and loadable, (3) every default key path that exists
and parses, (4) static password when set, and (5) the
keyboard-interactive method, appended UNCONDITIONALLY. -/
def buildAuthMethods (env : AuthEnv) (cfg : TunnelAuthConfig) : List AuthMethod :=
  let methods : List AuthMethod := []
  let methods :=
    match trySSHAgent env with
    | some a => methods ++ [a]
    | none => methods
  let methods :=
    if cfg.sshKeyPath ≠ "" ∧ env.explicitKeyLoads = true then
      methods ++ [AuthMethod.publicKey cfg.sshKeyPath]
    else methods
  let methods := methods ++ env.defaultKeys.filterMap
    (fun p => if p.2.1 = true ∧ p.2.2 = true then some (AuthMethod.publicKey p.1) else none)
  let methods :=
    if cfg.sshPassword ≠ "" then methods ++ [AuthMethod.passwordAuth cfg.sshPassword]
    else methods
  methods ++ [AuthMethod.keyboardInteractive]

/-- Mirror of the guard at the top of ssh_tunnel.go `connect`: the error
is returned exactly when the built list is empty. -/
def connectAuthGuard (env : AuthEnv) (cfg : TunnelAuthConfig) : Option String :=
  if (buildAuthMethods env cfg).length = 0 then
    some "no authentication methods available"
  else none

/-- A configuration and environment in which no credential resolves: no
agent, no key file, no password. -/
def emptyAuthEnv : AuthEnv :=
  { agentSocketSet := false, agentDialOk := false, agentListOk := false,
    agentKeyCount := 0, explicitKeyLoads := false, defaultKeys := [] }

/-- The empty tunnel auth configuration. -/
def emptyAuthCfg : TunnelAuthConfig := { sshKeyPath := "", sshPassword := "" }

/- ===================== Claim C3 ===================== -/

/-- C3 counterexample: even when zero credentials resolve (no agent, no
key, no password) the built list still holds the keyboard-interactive
method, so `connect` does not fail with `no authentication methods
available` — the empty-list branch is not reachable for this (or any)
configuration. -/
theorem authMethods_counterexample :
    buildAuthMethods emptyAuthEnv emptyAuthCfg = [AuthMethod.keyboardInteractive] ∧
    connectAuthGuard emptyAuthEnv emptyAuthCfg = none := by
  exact ⟨rfl, rfl⟩

/-- C3 (amended): the guard in `connect` would return
`no authentication methods available` if the built list were empty, but
`buildAuthMethods` unconditionally appends the keyboard-interactive
method as its last element, so the list is never empty, the guard never
fires, and every connect attempt proceeds to the SSH dial regardless of
the configuration. -/
theorem authMethods_never_empty (env : AuthEnv) (cfg : TunnelAuthConfig) :
    (buildAuthMethods env cfg = [] →
       connectAuthGuard env cfg = some "no authentication methods available") ∧
    buildAuthMethods env cfg ≠ [] ∧
    (buildAuthMethods env cfg).getLast? = some AuthMethod.keyboardInteractive ∧
    connectAuthGuard env cfg = none := by
  have hne : buildAuthMethods env cfg ≠ [] := by
    unfold buildAuthMethods
    dsimp only
    simp
  refine ⟨fun hx => absurd hx hne, hne, ?_, ?_⟩
  · unfold buildAuthMethods
    dsimp only
    rw [List.getLast?_concat]
  · unfold connectAuthGuard
    rw [if_neg (fun h0 => hne (List.length_eq_zero.mp h0))]

/-- Witness for C3 (amended) at the empty environment. -/
theorem authMethods_never_empty_witness :
    buildAuthMethods emptyAuthEnv emptyAuthCfg ≠ [] ∧
    (buildAuthMethods emptyAuthEnv emptyAuthCfg).getLast?
      = some AuthMethod.keyboardInteractive :=
  ⟨(authMethods_never_empty emptyAuthEnv emptyAuthCfg).2.1,
   (authMethods_never_empty emptyAuthEnv emptyAuthCfg).2.2.1⟩

/- ================= ssh_tunnel.go : Start reconnect loop ================= -/

/-- Outcome of one `connect` call as observed by the `Start` loop:
a non-nil error (the auth guard, a dial failure, a remote-listen
failure, an accept failure, or a propagated context error), a nil
return because `stopChan` fired, or a propagated context cancellation.
A keepalive send failure is NOT among the errors `connect` returns: the
keepalive goroutine swallows it (log and return, see `keepaliveRun`);
the session ends only when the accept loop later fails on its own. -/
inductive ConnectResult
  | failed (msg : String)
  | stoppedClean
  | ctxCancelled
deriving DecidableEq, Repr

/-- What ends the 5-second backoff select. -/
inductive WaitResult
  | elapsed
  | ctxDone
  | stopChanFired
deriving DecidableEq, Repr

/-- One iteration of the environment the `Start` loop runs against:
the result of this `connect` attempt, whether `Stop()` ran concurrently
during the attempt (clearing the reconnect flag), and what ends the
backoff wait. -/
structure StartStep where
  connectResult : ConnectResult
  stopDuringAttempt : Bool
  wait : WaitResult
deriving DecidableEq, Repr

/-- Observable events of the `Start` loop, in order. -/
inductive StartEv
  | attemptStarted
  | statusCb (connected : Bool) (errMsg : Option String)
  | sleptSeconds (n : Nat)
  | returned
deriving DecidableEq, Repr

/-- Mirror of the `Start` loop of ssh_tunnel.go: each iteration runs
`connect`; a non-nil error fires the status callback (when one is set)
with connected=false and the error; if the reconnect flag was cleared by
`Stop()` the loop returns, otherwise it sleeps a fixed 5 seconds in a
select that is also woken by context cancellation or `stopChan`, and
then loops.  A nil `connect` return (stop) returns immediately without
a callback; a propagated context error fires the callback and then the
backoff select returns at once because the context is already done. -/
def startRun (cbSet : Bool) : List StartStep → List StartEv
  | [] => []
  | step :: rest =>
    StartEv.attemptStarted ::
    match step.connectResult with
    | ConnectResult.stoppedClean => [StartEv.returned]
    | ConnectResult.ctxCancelled =>
      (if cbSet then [StartEv.statusCb false (some "context canceled")] else []) ++
        [StartEv.returned]
    | ConnectResult.failed msg =>
      (if cbSet then [StartEv.statusCb false (some msg)] else []) ++
        (if step.stopDuringAttempt then [StartEv.returned]
         else
           match step.wait with
           | WaitResult.elapsed => StartEv.sleptSeconds 5 :: startRun cbSet rest
           | WaitResult.ctxDone => [StartEv.returned]
           | WaitResult.stopChanFired => [StartEv.returned])

/-- Whether the loop proceeds to another attempt after this step: only a
failed attempt with no concurrent stop and a fully elapsed backoff. -/
def continuesAfter (s : StartStep) : Bool :=
  match s.connectResult, s.stopDuringAttempt, s.wait with
  | ConnectResult.failed _, false, WaitResult.elapsed => true
  | _, _, _ => false

/-- The prefix of the script the loop actually executes. -/
def executedSteps : List StartStep → List StartStep
  | [] => []
  | s :: rest => s :: (if continuesAfter s then executedSteps rest else [])

/-- Number of attempts recorded in a trace. -/
def countAttempts (evs : List StartEv) : Nat :=
  evs.countP (fun e => match e with | StartEv.attemptStarted => true | _ => false)

/-- Whether a trace ends in the `returned` event. -/
def endsWithReturn : List StartEv → Bool
  | [] => false
  | [e] => e == StartEv.returned
  | _ :: rest => endsWithReturn rest

/-- Scanning forward, a 5-second sleep occurs before any further attempt. -/
def noAttemptBeforeSleep5 : List StartEv → Bool
  | [] => true
  | StartEv.sleptSeconds 5 :: _ => true
  | StartEv.attemptStarted :: _ => false
  | _ :: rest => noAttemptBeforeSleep5 rest

/-- Every pair of consecutive attempts has a 5-second sleep between them. -/
def waitsBetween : List StartEv → Bool
  | [] => true
  | StartEv.attemptStarted :: rest => noAttemptBeforeSleep5 rest && waitsBetween rest
  | _ :: rest => waitsBetween rest

theorem startRun_waitsBetween (cbSet : Bool) (script : List StartStep) :
    waitsBetween (startRun cbSet script) = true := by
  induction script with
  | nil => rfl
  | cons step rest ih =>
    obtain ⟨cr, sda, w⟩ := step
    cases cr <;> cases sda <;> cases w <;> cases cbSet <;>
      simp_all [startRun, waitsBetween, noAttemptBeforeSleep5]

theorem startRun_reports_failures (script : List StartStep) (s : StartStep) (msg : String)
    (hs : s ∈ executedSteps script) (hf : s.connectResult = ConnectResult.failed msg) :
    StartEv.statusCb false (some msg) ∈ startRun true script := by
  induction script with
  | nil => cases hs
  | cons step rest ih =>
    rw [executedSteps] at hs
    rcases List.mem_cons.mp hs with heq | htail
    · subst heq
      obtain ⟨cr, sda, w⟩ := s
      simp only at hf
      subst hf
      cases sda <;> cases w <;> simp [startRun]
    · by_cases hcont : continuesAfter step = true
      · rw [if_pos hcont] at htail
        have hmem := ih htail
        obtain ⟨cr, sda, w⟩ := step
        cases cr <;> cases sda <;> cases w <;> simp_all [startRun, continuesAfter]
      · rw [if_neg hcont] at htail
        cases htail

theorem startRun_countAttempts (cbSet : Bool) (script : List StartStep) :
    countAttempts (startRun cbSet script) = (executedSteps script).length := by
  induction script with
  | nil => rfl
  | cons step rest ih =>
    obtain ⟨cr, sda, w⟩ := step
    cases cr <;> cases sda <;> cases w <;> cases cbSet <;>
      simp_all [startRun, executedSteps, continuesAfter, countAttempts, List.countP_cons,
        List.countP_append]

theorem startRun_ne_nil (cbSet : Bool) (script : List StartStep) (h : script ≠ []) :
    startRun cbSet script ≠ [] := by
  cases script with
  | nil => exact absurd rfl h
  | cons step rest => simp [startRun]

theorem endsWithReturn_cons_cons (a b : StartEv) (l : List StartEv) :
    endsWithReturn (a :: b :: l) = endsWithReturn (b :: l) := rfl

theorem startRun_ends_with_return (cbSet : Bool) (script : List StartStep) (s : StartStep)
    (hs : s ∈ executedSteps script) (ht : continuesAfter s = false) :
    endsWithReturn (startRun cbSet script) = true := by
  induction script with
  | nil => cases hs
  | cons step rest ih =>
    rw [executedSteps] at hs
    rcases List.mem_cons.mp hs with heq | htail
    · subst heq
      obtain ⟨cr, sda, w⟩ := s
      cases cr <;> cases sda <;> cases w <;> cases cbSet <;>
        simp_all [startRun, continuesAfter, endsWithReturn]
    · by_cases hcont : continuesAfter step = true
      · rw [if_pos hcont] at htail
        have hrest : rest ≠ [] := by
          intro hx
          subst hx
          cases htail
        have hmem := ih htail
        have hne := startRun_ne_nil cbSet rest hrest
        obtain ⟨cr, sda, w⟩ := step
        cases cr <;> cases sda <;> cases w <;> simp_all [startRun, continuesAfter] <;>
          (cases hx : startRun cbSet rest with
           | nil => exact absurd hx hne
           | cons y ys => rw [hx] at hmem; cases cbSet <;> simpa [endsWithReturn] using hmem)
      · rw [if_neg hcont] at htail
        cases htail

/- ================= ssh_tunnel.go : keepalive goroutine ================= -/

/-- What wakes one iteration of the keepalive select loop: context
cancellation, a fired stopChan, or a ticker tick whose SendRequest
succeeds or fails. -/
inductive KeepaliveTick
  | ctxDone
  | stopChanFired
  | tickSendOk
  | tickSendFailed (msg : String)
deriving DecidableEq, Repr

/-- Observable events of the keepalive goroutine.  The constructors
`statusCbFired` and `closedSession` name actions the goroutine could
take but never does: they are provably absent from every run. -/
inductive KeepaliveEv
  | sendAttempted
  | loggedFailure (msg : String)
  | statusCbFired
  | closedSession
  | goroutineReturned
deriving DecidableEq, Repr

/-- Mirror of ssh_tunnel.go `keepalive`: on every ticker tick one
keepalive request is sent; when the send fails the goroutine logs the
error and returns — it closes nothing, invokes no status callback, and
does not make `connect` return; context cancellation and `stopChan` end
it silently. -/
def keepaliveRun : List KeepaliveTick → List KeepaliveEv
  | [] => []
  | KeepaliveTick.ctxDone :: _ => [KeepaliveEv.goroutineReturned]
  | KeepaliveTick.stopChanFired :: _ => [KeepaliveEv.goroutineReturned]
  | KeepaliveTick.tickSendOk :: rest => KeepaliveEv.sendAttempted :: keepaliveRun rest
  | KeepaliveTick.tickSendFailed msg :: _ =>
    [KeepaliveEv.sendAttempted, KeepaliveEv.loggedFailure msg,
     KeepaliveEv.goroutineReturned]

theorem keepaliveRun_no_side_effects (ticks : List KeepaliveTick) :
    KeepaliveEv.statusCbFired ∉ keepaliveRun ticks ∧
    KeepaliveEv.closedSession ∉ keepaliveRun ticks := by
  induction ticks with
  | nil => simp [keepaliveRun]
  | cons t rest ih => cases t <;> simp_all [keepaliveRun]

/- ===================== Claim C7 ===================== -/

/-- C7 counterexample: a keepalive send failure is not a terminal error
of the connect attempt — the keepalive goroutine merely logs it and
returns: it fires no status callback and tears nothing down, so by
itself it triggers no 5-second backoff and no new connect attempt.  The
claim's inclusion of keepalive failure among the errors that fire the
callback and trigger the backoff is therefore false. -/
theorem keepalive_failure_not_reported :
    keepaliveRun [KeepaliveTick.tickSendFailed "keepalive failed"]
      = [KeepaliveEv.sendAttempted, KeepaliveEv.loggedFailure "keepalive failed",
         KeepaliveEv.goroutineReturned] ∧
    KeepaliveEv.statusCbFired ∉ keepaliveRun [KeepaliveTick.tickSendFailed "keepalive failed"] ∧
    KeepaliveEv.closedSession ∉ keepaliveRun [KeepaliveTick.tickSendFailed "keepalive failed"] := by
  refine ⟨rfl, by decide, by decide⟩

/-- C7 (amended): in the `Start` loop (run with a status callback
configured, as the App layer always does), every terminal error that
`connect` actually returns — a dial failure, a remote-listener failure,
an accept failure, or a propagated context error — fires the callback
with connected=false and that error; any two consecutive attempts are
separated by a fixed 5-second sleep; the number of attempts equals the
number of executed script steps; and as soon as a step does not continue
the loop — a stop, a context cancellation, or a backoff cut short by
either — the trace ends with the loop returning and no further attempt
is made.  A keepalive send failure is not such an error: in every run of
the keepalive goroutine, the failure path only logs and returns, firing
no callback and closing nothing, so by itself it triggers no backoff and
no new attempt. -/
theorem startLoop_backoff_report_stop (script : List StartStep) :
    waitsBetween (startRun true script) = true ∧
    (∀ s msg, s ∈ executedSteps script → s.connectResult = ConnectResult.failed msg →
       StartEv.statusCb false (some msg) ∈ startRun true script) ∧
    countAttempts (startRun true script) = (executedSteps script).length ∧
    (∀ s, s ∈ executedSteps script → continuesAfter s = false →
       endsWithReturn (startRun true script) = true) ∧
    (∀ ticks : List KeepaliveTick,
       KeepaliveEv.statusCbFired ∉ keepaliveRun ticks ∧
       KeepaliveEv.closedSession ∉ keepaliveRun ticks) :=
  ⟨startRun_waitsBetween true script,
   fun s msg hs hf => startRun_reports_failures script s msg hs hf,
   startRun_countAttempts true script,
   fun s hs ht => startRun_ends_with_return true script s hs ht,
   fun ticks => keepaliveRun_no_side_effects ticks⟩

/-- Script of three failing dial attempts; the third is interrupted by
context cancellation during the backoff. -/
def scriptThreeFailures : List StartStep :=
  [ { connectResult := ConnectResult.failed "failed to dial SSH", stopDuringAttempt := false,
      wait := WaitResult.elapsed },
    { connectResult := ConnectResult.failed "failed to dial SSH", stopDuringAttempt := false,
      wait := WaitResult.elapsed },
    { connectResult := ConnectResult.failed "failed to dial SSH", stopDuringAttempt := false,
      wait := WaitResult.ctxDone } ]

/-- Witness for C7 at the concrete three-failure script. -/
theorem startLoop_backoff_report_stop_witness :
    StartEv.statusCb false (some "failed to dial SSH") ∈ startRun true scriptThreeFailures ∧
    countAttempts (startRun true scriptThreeFailures) = 3 ∧
    endsWithReturn (startRun true scriptThreeFailures) = true := by
  refine ⟨?_, ?_, ?_⟩
  · exact (startLoop_backoff_report_stop scriptThreeFailures).2.1
      { connectResult := ConnectResult.failed "failed to dial SSH",
        stopDuringAttempt := false, wait := WaitResult.elapsed }
      "failed to dial SSH" (by decide) rfl
  · exact (startLoop_backoff_report_stop scriptThreeFailures).2.2.1
  · exact (startLoop_backoff_report_stop scriptThreeFailures).2.2.2.1
      { connectResult := ConnectResult.failed "failed to dial SSH",
        stopDuringAttempt := false, wait := WaitResult.ctxDone }
      (by decide) (by decide)

/- ================= ssh_tunnel.go : connect session trace ================= -/

/-- Observable events of one `connect` call, in program order. -/
inductive ConnEv
  | dialTried
  | handshakeOk
  | listenerEstablished
  | statusCb (connected : Bool)
  | keepaliveStarted
  | acceptLoopEntered
  | returnedConnectError (msg : String)
  | returnedConnectClean
deriving DecidableEq, Repr

/-- Environment facts that decide the path through `connect`: the length
of the built auth list, the outcomes of the first dial and of the
password-retry dial, whether a password was configured and a prompt
callback installed, whether the remote `Listen` succeeds, whether a
status callback is installed, and how the accept loop eventually ends. -/
structure ConnectEnv where
  authMethodCount : Nat
  dialOk : Bool
  passwordSet : Bool
  promptAvailable : Bool
  retryDialOk : Bool
  listenOk : Bool
  callbackSet : Bool
  loopResult : ConnectResult
deriving DecidableEq, Repr

/-- How the accept loop of `connect` ends: an accept error is returned,
a fired stopChan returns nil, a done context returns its error. -/
def acceptLoopEvents : ConnectResult → List ConnEv
  | ConnectResult.failed msg => [ConnEv.returnedConnectError msg]
  | ConnectResult.stoppedClean => [ConnEv.returnedConnectClean]
  | ConnectResult.ctxCancelled => [ConnEv.returnedConnectError "context canceled"]

/-- Continuation of `connect` after a successful SSH handshake: request
the remote listener; on failure return the error — no connected report
is ever made; on success report connected=true (when a callback is set),
start the keepalive goroutine and enter the accept loop. -/
def afterHandshake (env : ConnectEnv) : List ConnEv :=
  if env.listenOk = false then
    [ConnEv.returnedConnectError "failed to listen on remote"]
  else
    ConnEv.listenerEstablished ::
      ((if env.callbackSet then [ConnEv.statusCb true] else []) ++
        (ConnEv.keepaliveStarted :: ConnEv.acceptLoopEntered ::
          acceptLoopEvents env.loopResult))

/-- Mirror of the event order of ssh_tunnel.go `connect`: the auth guard,
the SSH dial (with one password-prompt retry when the first dial fails,
no password is set and a prompt callback exists), then the remote listen
and the connected report, keepalive and accept loop. -/
def connectTrace (env : ConnectEnv) : List ConnEv :=
  if env.authMethodCount = 0 then
    [ConnEv.returnedConnectError "no authentication methods available"]
  else
    ConnEv.dialTried ::
      (if env.dialOk then ConnEv.handshakeOk :: afterHandshake env
       else if env.passwordSet = false ∧ env.promptAvailable = true then
         ConnEv.dialTried ::
           (if env.retryDialOk then ConnEv.handshakeOk :: afterHandshake env
            else [ConnEv.returnedConnectError "failed to dial SSH"])
       else [ConnEv.returnedConnectError "failed to dial SSH"])

/-- Scanning a connect trace from the start: no connected=true report may
occur before the listener-established event. -/
def cbTrueOnlyAfterListener : List ConnEv → Bool
  | [] => true
  | ConnEv.listenerEstablished :: _ => true
  | ConnEv.statusCb true :: _ => false
  | _ :: rest => cbTrueOnlyAfterListener rest

theorem afterHandshake_cbTrue_ordered (env : ConnectEnv) :
    cbTrueOnlyAfterListener (afterHandshake env) = true := by
  obtain ⟨n, d, ps, pa, rt, l, cb, lr⟩ := env
  cases l <;> cases cb <;> cases lr <;>
    simp [afterHandshake, acceptLoopEvents, cbTrueOnlyAfterListener]

theorem afterHandshake_no_cbTrue_without_listener (env : ConnectEnv)
    (h : env.listenOk = false) : ConnEv.statusCb true ∉ afterHandshake env := by
  obtain ⟨n, d, ps, pa, rt, l, cb, lr⟩ := env
  cases h
  simp [afterHandshake, acceptLoopEvents]

theorem afterHandshake_cbTrue_when_listened (env : ConnectEnv)
    (hl : env.listenOk = true) (hcb : env.callbackSet = true) :
    ConnEv.statusCb true ∈ afterHandshake env := by
  obtain ⟨n, d, ps, pa, rt, l, cb, lr⟩ := env
  cases hl
  cases hcb
  simp [afterHandshake]

theorem afterHandshake_no_cbFalse (env : ConnectEnv) :
    ConnEv.statusCb false ∉ afterHandshake env := by
  obtain ⟨n, d, ps, pa, rt, l, cb, lr⟩ := env
  cases l <;> cases cb <;> cases lr <;>
    simp [afterHandshake, acceptLoopEvents]

/- ===================== Claim C8 ===================== -/

/-- Environment where the handshake succeeds but the remote listen
fails. -/
def envListenFails : ConnectEnv :=
  { authMethodCount := 1, dialOk := true, passwordSet := false, promptAvailable := false,
    retryDialOk := false, listenOk := false, callbackSet := true,
    loopResult := ConnectResult.stoppedClean }

/-- Environment of a fully successful session establishment that is
later ended by `Stop()` (the accept loop returns nil via `stopChan`). -/
def envAllOk : ConnectEnv :=
  { authMethodCount := 1, dialOk := true, passwordSet := false, promptAvailable := false,
    retryDialOk := false, listenOk := true, callbackSet := true,
    loopResult := ConnectResult.stoppedClean }

/-- C8 counterexample: the status callback is not invoked on every state
transition.  In a session that connects successfully and is then ended
by `Stop()`, the connect trace reports connected=true once and then
returns cleanly with no further report — the connected-to-stopped
transition fires no callback (`connect` never reports connected=false,
and `Start` fires the callback only on a non-nil error, so the stop
iteration emits no callback either). -/
theorem stopped_transition_reports_nothing :
    connectTrace envAllOk
      = [ConnEv.dialTried, ConnEv.handshakeOk, ConnEv.listenerEstablished,
         ConnEv.statusCb true, ConnEv.keepaliveStarted, ConnEv.acceptLoopEntered,
         ConnEv.returnedConnectClean] ∧
    ConnEv.statusCb false ∉ connectTrace envAllOk ∧
    startRun true
        [{ connectResult := ConnectResult.stoppedClean, stopDuringAttempt := true,
           wait := WaitResult.elapsed }]
      = [StartEv.attemptStarted, StartEv.returned] := by
  refine ⟨rfl, by decide, rfl⟩

/-- C8 (amended): the status callback is invoked on the reported
transitions only.  In every execution of `connect`, a connected=true
report occurs only after the remote listener has been established —
never from the SSH handshake alone (when the remote `Listen` fails, no
connected=true report exists anywhere in the trace) — and the
transition to connected always reports connected=true when a callback
is installed; `connect` itself never reports connected=false; a clean
stop produces no callback at all (the `Start` iteration of a stopped
attempt emits none); and at the `Start` level every executed failing
attempt reports connected=false with its error. -/
theorem connected_report_requires_listener (env : ConnectEnv) :
    cbTrueOnlyAfterListener (connectTrace env) = true ∧
    (env.listenOk = false → ConnEv.statusCb true ∉ connectTrace env) ∧
    (env.authMethodCount ≠ 0 → env.listenOk = true → env.callbackSet = true →
       (env.dialOk = true ∨
         (env.passwordSet = false ∧ env.promptAvailable = true ∧ env.retryDialOk = true)) →
       ConnEv.statusCb true ∈ connectTrace env) ∧
    ConnEv.statusCb false ∉ connectTrace env ∧
    (∀ (step : StartStep) (rest : List StartStep),
       step.connectResult = ConnectResult.stoppedClean →
       startRun true (step :: rest) = [StartEv.attemptStarted, StartEv.returned]) ∧
    (∀ script s msg, s ∈ executedSteps script →
       s.connectResult = ConnectResult.failed msg →
       StartEv.statusCb false (some msg) ∈ startRun true script) := by
  refine ⟨?_, ?_, ?_, ?_, ?_,
    fun script s msg hs hf => startRun_reports_failures script s msg hs hf⟩
  · by_cases hn : env.authMethodCount = 0
    · simp [connectTrace, hn, cbTrueOnlyAfterListener]
    · have hh := afterHandshake_cbTrue_ordered env
      obtain ⟨n, d, ps, pa, rt, l, cb, lr⟩ := env
      cases d <;> cases ps <;> cases pa <;> cases rt <;>
        simp_all [connectTrace, cbTrueOnlyAfterListener]
  · intro hl
    have hh := afterHandshake_no_cbTrue_without_listener env hl
    by_cases hn : env.authMethodCount = 0
    · simp [connectTrace, hn]
    · obtain ⟨n, d, ps, pa, rt, l, cb, lr⟩ := env
      cases d <;> cases ps <;> cases pa <;> cases rt <;>
        simp_all [connectTrace]
  · intro hn hl hcb hd
    have hh := afterHandshake_cbTrue_when_listened env hl hcb
    obtain ⟨n, d, ps, pa, rt, l, cb, lr⟩ := env
    rcases hd with hd | ⟨hps, hpa, hrt⟩
    · cases hd
      simp_all [connectTrace]
    · cases hps
      cases hpa
      cases hrt
      cases d <;> simp_all [connectTrace]
  · have hh := afterHandshake_no_cbFalse env
    by_cases hn : env.authMethodCount = 0
    · simp [connectTrace, hn]
    · obtain ⟨n, d, ps, pa, rt, l, cb, lr⟩ := env
      cases d <;> cases ps <;> cases pa <;> cases rt <;>
        simp_all [connectTrace]
  · intro step rest hf
    obtain ⟨cr, sda, w⟩ := step
    simp only at hf
    subst hf
    rfl

/-- Witness for C8 at concrete environments: with a successful handshake
but failed listen there is no connected=true report; with a successful
listen there is one, and it is ordered after the listener event. -/
theorem connected_report_requires_listener_witness :
    ConnEv.statusCb true ∉ connectTrace envListenFails ∧
    ConnEv.statusCb true ∈ connectTrace envAllOk ∧
    cbTrueOnlyAfterListener (connectTrace envAllOk) = true := by
  refine ⟨(connected_report_requires_listener envListenFails).2.1 rfl, ?_, ?_⟩
  · exact (connected_report_requires_listener envAllOk).2.2.1 (by decide) rfl rfl (Or.inl rfl)
  · exact (connected_report_requires_listener envAllOk).1
